import Mathlib

/-!
Shallow embedding of the pulling-agent control plane
(src/src/agent.py, src/src/distributed_control.py, src/src/supervisor.py,
src/src/config.py, src/src/main.py) and proofs about it.
-/

namespace PullingAgent

/-! ## Agent lifecycle state machine (src/src/config.py, src/src/agent.py) -/

/-- AgentState enum from src/src/config.py lines 9-14. -/
inductive AgentState where
  | running
  | paused
  | stopping
  | stopped
deriving DecidableEq, Repr

/-- State of a PullingAgent relevant to the lifecycle operations:
the canonical state, the two asyncio events, and the readiness marker
(src/src/agent.py lines 31-48). -/
structure Agent where
  state : AgentState
  pauseEventSet : Bool
  shutdownEventSet : Bool
  readiness : Bool
deriving DecidableEq, Repr

/-- Freshly constructed agent: state RUNNING, pause event set (unpaused),
shutdown event clear (src/src/agent.py lines 34-42); the readiness marker
file does not exist yet. -/
def Agent.init : Agent :=
  { state := .running, pauseEventSet := true, shutdownEventSet := false,
    readiness := false }

/-- PullingAgent.pause (src/src/agent.py lines 333-341): only from RUNNING;
sets state PAUSED, removes readiness, clears the pause event; otherwise a
logged no-op. -/
def Agent.pause (a : Agent) : Agent :=
  if a.state = .running then
    { a with state := .paused, readiness := false, pauseEventSet := false }
  else a

/-- PullingAgent.resume (src/src/agent.py lines 343-351): only from PAUSED;
sets state RUNNING, writes readiness, sets the pause event; otherwise a
logged no-op. -/
def Agent.resume (a : Agent) : Agent :=
  if a.state = .paused then
    { a with state := .running, readiness := true, pauseEventSet := true }
  else a

/-- PullingAgent.shutdown (src/src/agent.py lines 353-362): no-op from
STOPPING or STOPPED; otherwise sets state STOPPING, removes readiness and
sets the shutdown event.  Note that the pause event is left untouched. -/
def Agent.shutdown (a : Agent) : Agent :=
  if a.state = .stopping ∨ a.state = .stopped then a
  else
    { a with state := .stopping, readiness := false, shutdownEventSet := true }

/-- The three lifecycle operations callable by control sources. -/
inductive AgentOp where
  | pauseOp
  | resumeOp
  | shutdownOp
deriving DecidableEq, Repr

def Agent.apply (a : Agent) (op : AgentOp) : Agent :=
  match op with
  | .pauseOp => a.pause
  | .resumeOp => a.resume
  | .shutdownOp => a.shutdown

def Agent.applyAll (a : Agent) : List AgentOp → Agent
  | [] => a
  | op :: ops => (a.apply op).applyAll ops

/-- Number of pause calls in the trace made while the precondition state
(RUNNING) holds. -/
def effectivePauses (a : Agent) : List AgentOp → Nat
  | [] => 0
  | op :: ops =>
    (if op = .pauseOp ∧ a.state = .running then 1 else 0) +
      effectivePauses (a.apply op) ops

/-- Number of resume calls in the trace made while the precondition state
(PAUSED) holds. -/
def effectiveResumes (a : Agent) : List AgentOp → Nat
  | [] => 0
  | op :: ops =>
    (if op = .resumeOp ∧ a.state = .paused then 1 else 0) +
      effectiveResumes (a.apply op) ops

/-- Indicator used in the pause/resume counting argument. -/
def pausedBit (a : Agent) : Nat := if a.state = .paused then 1 else 0

lemma pause_apply_nonrunning (a : Agent) (h : a.state ≠ .running) :
    a.pause = a := by
  simp [Agent.pause, h]

lemma resume_apply_nonpaused (a : Agent) (h : a.state ≠ .paused) :
    a.resume = a := by
  simp [Agent.resume, h]

lemma pausedBit_pause (a : Agent) :
    pausedBit (a.pause) =
      pausedBit a + (if a.state = .running then 1 else 0) := by
  rcases a with ⟨s, p, sh, r⟩
  cases s <;> simp [Agent.pause, pausedBit]

lemma pausedBit_resume (a : Agent) :
    pausedBit (a.resume) + (if a.state = .paused then 1 else 0) =
      pausedBit a := by
  rcases a with ⟨s, p, sh, r⟩
  cases s <;> simp [Agent.resume, pausedBit]

/-- Counting equation along any trace of pause/resume operations: effective
pauses plus the initial paused indicator equals effective resumes plus the
final paused indicator. -/
lemma eff_count_eq (ops : List AgentOp) :
    ∀ a : Agent, (∀ op ∈ ops, op = .pauseOp ∨ op = .resumeOp) →
      effectivePauses a ops + pausedBit a =
        effectiveResumes a ops + pausedBit (a.applyAll ops) := by
  induction ops with
  | nil => intro a _; simp [effectivePauses, effectiveResumes, Agent.applyAll]
  | cons op ops ih =>
    intro a h
    have hrest : ∀ o ∈ ops, o = .pauseOp ∨ o = .resumeOp := by
      intro o ho; exact h o (by simp [ho])
    have ihs := ih (a.apply op) hrest
    rcases h op (by simp) with hp | hr
    · subst hp
      rcases a with ⟨s, p, sh, r⟩
      cases s <;>
        simp [effectivePauses, effectiveResumes, Agent.applyAll, Agent.apply,
          Agent.pause, pausedBit] at ihs ⊢ <;>
        omega
    · subst hr
      rcases a with ⟨s, p, sh, r⟩
      cases s <;>
        simp [effectivePauses, effectiveResumes, Agent.applyAll, Agent.apply,
          Agent.resume, pausedBit] at ihs ⊢ <;>
        omega

lemma apply_terminal (a : Agent) (op : AgentOp)
    (h : a.state = .stopping ∨ a.state = .stopped) :
    a.apply op = a := by
  rcases h with h | h <;>
    cases op <;>
      simp [Agent.apply, Agent.pause, Agent.resume, Agent.shutdown, h]

/-- C7: starting from RUNNING, a sequence of pause/resume calls leaves the
agent PAUSED exactly when the effective pause calls (made while RUNNING)
outnumber the effective resume calls (made while PAUSED); pause/resume whose
precondition fails change nothing; and from STOPPING or STOPPED no
pause/resume/shutdown call changes the state. -/
theorem pause_resume_state_characterization
    (ops : List AgentOp) (h : ∀ op ∈ ops, op = .pauseOp ∨ op = .resumeOp) :
    ((Agent.init.applyAll ops).state = .paused ↔
      effectiveResumes Agent.init ops < effectivePauses Agent.init ops)
    ∧ (∀ a : Agent, a.state ≠ .running → a.pause = a)
    ∧ (∀ a : Agent, a.state ≠ .paused → a.resume = a)
    ∧ (∀ (a : Agent) (op : AgentOp),
        a.state = .stopping ∨ a.state = .stopped → (a.apply op).state = a.state) := by
  refine ⟨?_, pause_apply_nonrunning, resume_apply_nonpaused, ?_⟩
  · have heq := eff_count_eq ops Agent.init h
    have hb : pausedBit Agent.init = 0 := rfl
    constructor
    · intro hp
      have hfin : pausedBit (Agent.init.applyAll ops) = 1 := by
        simp [pausedBit, hp]
      omega
    · intro hlt
      by_contra hne
      have hfin : pausedBit (Agent.init.applyAll ops) = 0 := by
        simp [pausedBit, hne]
      omega
  · intro a op hterm
    rw [apply_terminal a op hterm]

/-- Witness for the C7 theorem at the concrete trace [pause]. -/
theorem pause_resume_state_characterization_witness :
    ((Agent.init.applyAll [.pauseOp]).state = .paused ↔
      effectiveResumes Agent.init [.pauseOp] <
        effectivePauses Agent.init [.pauseOp])
    ∧ (∀ a : Agent, a.state ≠ .running → a.pause = a)
    ∧ (∀ a : Agent, a.state ≠ .paused → a.resume = a)
    ∧ (∀ (a : Agent) (op : AgentOp),
        a.state = .stopping ∨ a.state = .stopped → (a.apply op).state = a.state) :=
  pause_resume_state_characterization [.pauseOp] (by decide)

/-! ## The main processing loop of PullingAgent.run
(src/src/agent.py lines 180-204), modelled as a small-step transition
system.  Control locations: the while-condition check, the await on the
pause event, the batch call, and the interruptible poll-interval sleep.
Other concurrently running tasks (signal handlers, the control-file
monitor, the distributed-control callback, the HTTP API) may invoke
pause/resume/shutdown at any suspension point; SysStep overapproximates
them by allowing any lifecycle operation at any time. -/

inductive LoopLoc where
  | checkShutdown
  | waitPause
  | runBatch
  | sleepPoll
  | exited
deriving DecidableEq, Repr

structure LoopState where
  loc : LoopLoc
  agent : Agent
deriving DecidableEq, Repr

/-- One step of the main loop itself (src/src/agent.py lines 180-204):
the while condition exits once the shutdown event is set; the loop body
blocks on the pause event, runs one batch (errors are caught), then sleeps
interruptibly on the shutdown event, breaking if it is set. -/
inductive LoopStep : LoopState → LoopState → Prop where
  | exitTop (a : Agent) : a.shutdownEventSet = true →
      LoopStep ⟨.checkShutdown, a⟩ ⟨.exited, a⟩
  | enterIter (a : Agent) : a.shutdownEventSet = false →
      LoopStep ⟨.checkShutdown, a⟩ ⟨.waitPause, a⟩
  | passPause (a : Agent) : a.pauseEventSet = true →
      LoopStep ⟨.waitPause, a⟩ ⟨.runBatch, a⟩
  | batchDone (a : Agent) : LoopStep ⟨.runBatch, a⟩ ⟨.sleepPoll, a⟩
  | sleepShutdown (a : Agent) : a.shutdownEventSet = true →
      LoopStep ⟨.sleepPoll, a⟩ ⟨.exited, a⟩
  | sleepTimeout (a : Agent) : a.shutdownEventSet = false →
      LoopStep ⟨.sleepPoll, a⟩ ⟨.checkShutdown, a⟩

/-- A system step is either a step of the main loop or a lifecycle call
performed by any other control source. -/
inductive SysStep : LoopState → LoopState → Prop where
  | loop {s s' : LoopState} : LoopStep s s' → SysStep s s'
  | ctrl (op : AgentOp) (loc : LoopLoc) (a : Agent) :
      SysStep ⟨loc, a⟩ ⟨loc, a.apply op⟩

/-- The agent after pause() followed by shutdown(): state STOPPING, the
shutdown event set, but the pause event still cleared. -/
def pausedThenShutdown : Agent := Agent.init.pause.shutdown

lemma pausedThenShutdown_eq :
    pausedThenShutdown =
      { state := .stopping, pauseEventSet := false,
        shutdownEventSet := true, readiness := false } := by
  decide

lemma sysStep_from_blocked (s' : LoopState)
    (h : SysStep ⟨.waitPause, pausedThenShutdown⟩ s') :
    s' = ⟨.waitPause, pausedThenShutdown⟩ := by
  cases h with
  | loop hl =>
    cases hl with
    | passPause a hp =>
      exact absurd hp (by decide)
  | ctrl op loc a =>
    have hterm := apply_terminal pausedThenShutdown op
      (Or.inl (by decide))
    rw [hterm]

/-- C1 (failing input): once the agent has been paused and shutdown() has
then committed state to STOPPING, the main loop blocked on the pause event
is stuck forever: every reachable system state is still the blocked state,
so the loop never begins a batch and, contrary to the claim, never exits.
shutdown() leaves the pause event cleared and resume() refuses to set it
from STOPPING, so nothing ever unblocks the wait. -/
theorem shutdown_while_paused_never_exits :
    pausedThenShutdown.state = .stopping
    ∧ pausedThenShutdown.shutdownEventSet = true
    ∧ ∀ s' : LoopState,
        Relation.ReflTransGen SysStep ⟨.waitPause, pausedThenShutdown⟩ s' →
          s'.loc = .waitPause ∧ s'.loc ≠ .exited ∧ s'.loc ≠ .runBatch := by
  refine ⟨by decide, by decide, ?_⟩
  intro s' h
  have hfix : s' = ⟨.waitPause, pausedThenShutdown⟩ := by
    induction h with
    | refl => rfl
    | tail _ hbc ih =>
      rw [ih] at hbc
      exact sysStep_from_blocked _ hbc
  rw [hfix]
  exact ⟨rfl, by decide, by decide⟩

/-- Witness for the C1 theorem: the blocked state itself is reachable and
is neither exited nor running a batch. -/
theorem shutdown_while_paused_never_exits_witness :
    (⟨.waitPause, pausedThenShutdown⟩ : LoopState).loc = .waitPause
    ∧ (⟨.waitPause, pausedThenShutdown⟩ : LoopState).loc ≠ .exited
    ∧ (⟨.waitPause, pausedThenShutdown⟩ : LoopState).loc ≠ .runBatch :=
  shutdown_while_paused_never_exits.2.2 _ Relation.ReflTransGen.refl

/-! ## DistributedControlCoordinator (src/src/distributed_control.py) -/

/-- The global control document stored in the agent_control collection
(src/src/distributed_control.py lines 67-74): command, monotonically
increasing version, timestamp, free-text reason and audit field. -/
structure CommandRecord where
  command : String
  version : Nat
  timestamp : Nat
  reason : String
  updated_by : String
deriving DecidableEq, Repr

/-- The store holds at most the one global_control document. -/
abbrev Store := Option CommandRecord

/-- The commands accepted by set_global_command
(src/src/distributed_control.py line 104). -/
def validCommands : List String := ["running", "pause", "shutdown"]

/-- Outcome of set_global_command: the store afterwards, and either the
raised error or the returned value. -/
structure SetOutcome where
  store : Store
  result : Except String (Option CommandRecord)
deriving Repr

/-- DistributedControlCoordinator.set_global_command
(src/src/distributed_control.py lines 84-132): rejects a command outside
the three legal values with a ValueError before touching the store;
otherwise runs find_one_and_update with an increment of version and a set
of the other fields, which matches nothing and returns None when the
document is absent (no upsert), and returns the updated document when it
is present. -/
def set_global_command (store : Store) (command reason updated_by : String)
    (now : Nat) : SetOutcome :=
  if command ∈ validCommands then
    match store with
    | none => { store := none, result := .ok none }
    | some r =>
      let r' : CommandRecord :=
        { command := command, version := r.version + 1, timestamp := now,
          reason := reason, updated_by := updated_by }
      { store := some r', result := .ok (some r') }
  else
    { store := store, result := .error ("Invalid command " ++ command) }

/-- DistributedControlCoordinator.get_current_command
(src/src/distributed_control.py lines 134-142): point-in-time read of the
global_control document. -/
def get_current_command (store : Store) : Option CommandRecord := store

/-- Handling of one change-stream event in _watch_with_change_streams
(src/src/distributed_control.py lines 211-231): the callback is invoked
with the full document of every event; the last-seen version is neither
consulted nor updated. -/
def changeStreamEvent (lastVersion : Nat) (fullDoc : CommandRecord) :
    Nat × List (String × CommandRecord) :=
  (lastVersion, [(fullDoc.command, fullDoc)])

/-- Processing a whole sequence of change-stream events. -/
def changeStreamRun (lastVersion : Nat) :
    List CommandRecord → Nat × List (String × CommandRecord)
  | [] => (lastVersion, [])
  | doc :: rest =>
    let step := changeStreamEvent lastVersion doc
    let next := changeStreamRun step.1 rest
    (next.1, step.2 ++ next.2)

/-- One poll iteration of _watch_with_polling
(src/src/distributed_control.py lines 273-295): read the current document;
if present and its version exceeds the last-seen version, record the new
version and invoke the callback with the latest document, else do
nothing. -/
def pollOnce (lastVersion : Nat) (current : Option CommandRecord) :
    Nat × List (String × CommandRecord) :=
  match current with
  | some r =>
    if lastVersion < r.version then (r.version, [(r.command, r)])
    else (lastVersion, [])
  | none => (lastVersion, [])

/-- A run of the polling watcher over a sequence of point-in-time reads. -/
def pollRun (lastVersion : Nat) :
    List (Option CommandRecord) → Nat × List (String × CommandRecord)
  | [] => (lastVersion, [])
  | obs :: rest =>
    let step := pollOnce lastVersion obs
    let next := pollRun step.1 rest
    (next.1, step.2 ++ next.2)

lemma pollRun_chain (obs : List (Option CommandRecord)) :
    ∀ lastV : Nat,
      List.Chain (· < ·) lastV
        ((pollRun lastV obs).2.map (fun cb => cb.2.version)) := by
  induction obs with
  | nil => intro lastV; simp [pollRun]
  | cons o rest ih =>
    intro lastV
    cases o with
    | none => simpa [pollRun, pollOnce] using ih lastV
    | some r =>
      by_cases hv : lastV < r.version
      · simpa [pollRun, pollOnce, hv] using List.Chain.cons hv (ih r.version)
      · simpa [pollRun, pollOnce, hv] using ih lastV

lemma pollRun_lastVersion (obs : List (Option CommandRecord)) :
    ∀ lastV : Nat,
      (pollRun lastV obs).1 =
        List.foldl (fun _ v => v) lastV
          ((pollRun lastV obs).2.map (fun cb => cb.2.version)) := by
  induction obs with
  | nil => intro lastV; simp [pollRun]
  | cons o rest ih =>
    intro lastV
    cases o with
    | none => simpa [pollRun, pollOnce] using ih lastV
    | some r =>
      by_cases hv : lastV < r.version
      · simpa [pollRun, pollOnce, hv] using ih r.version
      · simpa [pollRun, pollOnce, hv] using ih lastV

lemma changeStreamRun_spec (events : List CommandRecord) :
    ∀ lastV : Nat,
      changeStreamRun lastV events =
        (lastV, events.map (fun r => (r.command, r))) := by
  induction events with
  | nil => intro lastV; simp [changeStreamRun]
  | cons doc rest ih =>
    intro lastV
    simp [changeStreamRun, changeStreamEvent, ih lastV]

/-- C2 counterexample: in change-stream mode the coordinator invokes the
callback even for a document whose version is below the last observed
version, and does not update the last-seen version. -/
theorem change_stream_no_version_gate_counterexample :
    (changeStreamEvent 5
        { command := "pause", version := 3, timestamp := 0, reason := "",
          updated_by := "op" }).2 =
      [("pause",
        { command := "pause", version := 3, timestamp := 0, reason := "",
          updated_by := "op" })]
    ∧ (3 : Nat) ≤ 5
    ∧ (changeStreamEvent 5
        { command := "pause", version := 3, timestamp := 0, reason := "",
          updated_by := "op" }).1 = 5 :=
  ⟨rfl, by omega, rfl⟩

/-- C2 amended: the version gate holds in polling mode only.  In polling
mode the delivered versions form a strictly increasing chain above the
initial last-seen version (so no delivery ever carries a version at or
below the last version observed), each delivery updates the last-seen
version, and the final last-seen version is the last delivered one.  In
change-stream mode every observed event is delivered to the callback
regardless of its version, and the last-seen version is never updated. -/
theorem version_gate_polling_only :
    (∀ (lastV : Nat) (obs : List (Option CommandRecord)),
      List.Chain (· < ·) lastV
        ((pollRun lastV obs).2.map (fun cb => cb.2.version))
      ∧ (∀ cb ∈ (pollRun lastV obs).2, lastV < cb.2.version)
      ∧ (pollRun lastV obs).1 =
          List.foldl (fun _ v => v) lastV
            ((pollRun lastV obs).2.map (fun cb => cb.2.version)))
    ∧ (∀ (lastV : Nat) (events : List CommandRecord),
      changeStreamRun lastV events =
        (lastV, events.map (fun r => (r.command, r)))) := by
  refine ⟨fun lastV obs => ⟨pollRun_chain obs lastV, ?_, pollRun_lastVersion obs lastV⟩,
    fun lastV events => changeStreamRun_spec events lastV⟩
  intro cb hcb
  have hchain := pollRun_chain obs lastV
  have hpair := List.chain_iff_pairwise.mp hchain
  have := List.rel_of_pairwise_cons hpair
    (List.mem_map_of_mem (fun cb => cb.2.version) hcb)
  exact this

/-- A concrete record at version 7, used in the C2 witness. -/
def gapRecord : CommandRecord :=
  { command := "pause", version := 7, timestamp := 0, reason := "",
    updated_by := "op" }

/-- Witness for the amended C2 theorem at the last-seen version 5, one
concrete poll observation and one concrete change-stream event. -/
theorem version_gate_polling_only_witness :
    (List.Chain (· < ·) 5
        ((pollRun 5 [some gapRecord]).2.map (fun cb => cb.2.version))
      ∧ (∀ cb ∈ (pollRun 5 [some gapRecord]).2, 5 < cb.2.version)
      ∧ (pollRun 5 [some gapRecord]).1 =
          List.foldl (fun _ v => v) 5
            ((pollRun 5 [some gapRecord]).2.map (fun cb => cb.2.version)))
    ∧ changeStreamRun 5 [gapRecord] =
      (5, List.map (fun r => (r.command, r)) [gapRecord]) :=
  ⟨version_gate_polling_only.1 5 _, version_gate_polling_only.2 5 _⟩

/-- C4: a polling watcher whose last observed version is V and which reads
a record at version V plus 3 delivers exactly one callback carrying that
latest record. -/
theorem polling_gap_delivers_latest_once (V : Nat) (r : CommandRecord)
    (h : r.version = V + 3) :
    pollOnce V (some r) = (V + 3, [(r.command, r)]) := by
  have hv : V < r.version := by omega
  simp only [pollOnce]
  rw [if_pos hv, h]

/-- Witness for the C4 theorem at V equal to 1 and a concrete record at
version 4. -/
theorem polling_gap_delivers_latest_once_witness :
    pollOnce 1 (some
      { command := "shutdown", version := 4, timestamp := 0, reason := "",
        updated_by := "op" }) =
      (4, [("shutdown",
        { command := "shutdown", version := 4, timestamp := 0, reason := "",
          updated_by := "op" })]) :=
  polling_gap_delivers_latest_once 1 _ rfl

/-- The record written by initialize() on first start
(src/src/distributed_control.py lines 67-74), used as a sample store
content. -/
def sampleRecord : CommandRecord :=
  { command := "running", version := 1, timestamp := 0,
    reason := "Initial state", updated_by := "system" }

/-- C5: on an initialized store, get_current_command immediately after a
legal set_global_command returns a record whose command, reason and
updated_by equal the inputs and whose version is exactly one greater than
the stored version before the call. -/
theorem set_then_get_round_trip (r : CommandRecord) (c reason u : String)
    (now : Nat) (hc : c ∈ validCommands) :
    ∃ r' : CommandRecord,
      get_current_command (set_global_command (some r) c reason u now).store =
        some r'
      ∧ r'.command = c ∧ r'.reason = reason ∧ r'.updated_by = u
      ∧ r'.version = r.version + 1 := by
  unfold set_global_command get_current_command
  rw [if_pos hc]
  exact ⟨_, rfl, rfl, rfl, rfl, rfl⟩

/-- Witness for the C5 theorem: the round trip on the freshly initialized
record with the shutdown command. -/
theorem set_then_get_round_trip_witness :
    ∃ r' : CommandRecord,
      get_current_command
          (set_global_command (some sampleRecord) "shutdown" "r" "u" 7).store =
        some r'
      ∧ r'.command = "shutdown" ∧ r'.reason = "r" ∧ r'.updated_by = "u"
      ∧ r'.version = sampleRecord.version + 1 :=
  set_then_get_round_trip sampleRecord "shutdown" "r" "u" 7 (by decide)

/-- C6: set_global_command with a command outside the three legal values
signals an error and leaves the store entirely unchanged; with a legal
command on an initialized store it performs the increment-and-set and
returns the new record including its new version. -/
theorem set_global_command_validation :
    (∀ (store : Store) (c reason u : String) (now : Nat),
      c ∉ validCommands →
        (set_global_command store c reason u now).store = store
        ∧ ∃ msg, (set_global_command store c reason u now).result = .error msg)
    ∧ (∀ (r : CommandRecord) (c reason u : String) (now : Nat),
      c ∈ validCommands →
        set_global_command (some r) c reason u now =
          { store := some
              { command := c, version := r.version + 1, timestamp := now,
                reason := reason, updated_by := u },
            result := .ok (some
              { command := c, version := r.version + 1, timestamp := now,
                reason := reason, updated_by := u }) }) := by
  constructor
  · intro store c reason u now hc
    unfold set_global_command
    rw [if_neg hc]
    exact ⟨rfl, _, rfl⟩
  · intro r c reason u now hc
    unfold set_global_command
    rw [if_pos hc]

/-- Witness for the C6 theorem: the rejected command restart leaves the
store untouched, and the legal command pause increments the version. -/
theorem set_global_command_validation_witness :
    ((set_global_command (some sampleRecord) "restart" "" "api" 0).store =
        some sampleRecord
      ∧ ∃ msg,
        (set_global_command (some sampleRecord) "restart" "" "api" 0).result =
          .error msg)
    ∧ set_global_command (some sampleRecord) "pause" "maintenance" "api" 9 =
        { store := some
            { command := "pause", version := sampleRecord.version + 1,
              timestamp := 9, reason := "maintenance", updated_by := "api" },
          result := .ok (some
            { command := "pause", version := sampleRecord.version + 1,
              timestamp := 9, reason := "maintenance", updated_by := "api" }) } :=
  ⟨set_global_command_validation.1 (some sampleRecord) "restart" "" "api" 0
      (by decide),
    set_global_command_validation.2 sampleRecord "pause" "maintenance" "api" 9
      (by decide)⟩

/-- C9: when the global control document is absent, a legal
set_global_command matches nothing, creates nothing, raises nothing, and
returns None. -/
theorem set_global_command_uninitialized (c reason u : String) (now : Nat)
    (hc : c ∈ validCommands) :
    set_global_command none c reason u now =
      { store := none, result := .ok none } := by
  unfold set_global_command
  rw [if_pos hc]

/-- Witness for the C9 theorem with the shutdown command on an empty
store. -/
theorem set_global_command_uninitialized_witness :
    set_global_command none "shutdown" "r" "u" 3 =
      { store := none, result := .ok none } :=
  set_global_command_uninitialized "shutdown" "r" "u" 3 (by decide)

/-! ## start_watching (src/src/distributed_control.py lines 350-369) -/

/-- Whether an asyncio task has finished. -/
inductive TaskStatus where
  | active
  | finished
deriving DecidableEq, Repr

/-- Identity and status of a created watch task. -/
structure WatchTask where
  id : Nat
  status : TaskStatus
deriving DecidableEq, Repr

/-- The coordinator state that start_watching consults. -/
structure Coordinator where
  watchTask : Option WatchTask
deriving DecidableEq, Repr

/-- DistributedControlCoordinator.start_watching
(src/src/distributed_control.py lines 350-369): when a watch task exists
and is not done, warn and return it unchanged; otherwise create a new task,
store it, and return it. -/
def start_watching (co : Coordinator) (freshId : Nat) :
    Coordinator × WatchTask :=
  match co.watchTask with
  | some t =>
    if t.status = .active then (co, t)
    else ({ watchTask := some { id := freshId, status := .active } },
          { id := freshId, status := .active })
  | none => ({ watchTask := some { id := freshId, status := .active } },
        { id := freshId, status := .active })

/-- C10: while a previously started watch task is not finished,
start_watching returns that task unchanged without creating a second
watcher; only when no task exists or the previous one is done does it
create and store a fresh task. -/
theorem start_watching_idempotent_while_active :
    (∀ (co : Coordinator) (t : WatchTask) (freshId : Nat),
      co.watchTask = some t → t.status = .active →
        start_watching co freshId = (co, t))
    ∧ (∀ (co : Coordinator) (freshId : Nat),
      (co.watchTask = none ∨
        ∃ t, co.watchTask = some t ∧ t.status = .finished) →
        start_watching co freshId =
          ({ watchTask := some { id := freshId, status := .active } },
           { id := freshId, status := .active })) := by
  constructor
  · intro co t freshId hsome hact
    unfold start_watching
    rw [hsome]
    simp [hact]
  · intro co freshId h
    unfold start_watching
    rcases h with hnone | ⟨t, hsome, hdone⟩
    · rw [hnone]
    · rw [hsome]
      simp [hdone]

/-- Witness for the C10 theorem: a coordinator with an active task with id
0 is returned unchanged, and one with a finished task gets a fresh task
with id 1. -/
theorem start_watching_idempotent_while_active_witness :
    start_watching { watchTask := some { id := 0, status := .active } } 1 =
      ({ watchTask := some { id := 0, status := .active } },
       { id := 0, status := .active })
    ∧ start_watching { watchTask := some { id := 0, status := .finished } } 1 =
      ({ watchTask := some { id := 1, status := .active } },
       { id := 1, status := .active }) :=
  ⟨start_watching_idempotent_while_active.1 _ _ 1 rfl rfl,
    start_watching_idempotent_while_active.2 _ 1
      (Or.inr ⟨_, rfl, rfl⟩)⟩

/-! ## SupervisedComponent (src/src/supervisor.py) -/

/-- ComponentState enum from src/src/supervisor.py lines 17-23. -/
inductive ComponentState where
  | starting
  | running
  | crashed
  | restarting
  | stopped
deriving DecidableEq, Repr

/-- The counters of a SupervisedComponent mutated by its monitoring loop
(src/src/supervisor.py lines 64-67). -/
structure ComponentRecord where
  restart_count : Nat
  crash_count : Nat
  state : ComponentState
deriving DecidableEq, Repr

/-- SupervisedComponent._run_with_monitoring
(src/src/supervisor.py lines 72-143), specialized to the C3 scenario:
component_func raises on every invocation and the shutdown event is never
set.  Each iteration increments crash_count and records state CRASHED; if
restart_count has reached max_restarts the component transitions to
STOPPED and the fatal RuntimeError naming the component is raised;
otherwise the interruptible backoff sleep times out, restart_count is
incremented and the loop runs again.  Returns the per-crash counter
snapshots, the final counters, and the fatal error message. -/
def run_with_monitoring_always_failing (name : String) (max_restarts : Nat)
    (restart_count crash_count : Nat) :
    List ComponentRecord × ComponentRecord × String :=
  let crash_count := crash_count + 1
  let snapshot : ComponentRecord :=
    { restart_count := restart_count, crash_count := crash_count,
      state := .crashed }
  if h : max_restarts ≤ restart_count then
    ([snapshot],
      { restart_count := restart_count, crash_count := crash_count,
        state := .stopped },
      name ++ " exceeded maximum restart attempts")
  else
    let rest := run_with_monitoring_always_failing name max_restarts
      (restart_count + 1) crash_count
    (snapshot :: rest.1, rest.2)
termination_by max_restarts - restart_count
decreasing_by omega

lemma run_always_failing_spec (name : String) (n : Nat) :
    ∀ (k rc cc : Nat), n - rc = k → rc ≤ n →
      ((run_with_monitoring_always_failing name n rc cc).2.1.restart_count = n
        ∧ (run_with_monitoring_always_failing name n rc cc).2.1.crash_count =
            cc + (n - rc) + 1
        ∧ (run_with_monitoring_always_failing name n rc cc).2.1.state = .stopped
        ∧ (run_with_monitoring_always_failing name n rc cc).2.2 =
            name ++ " exceeded maximum restart attempts")
      ∧ ∀ s ∈ (run_with_monitoring_always_failing name n rc cc).1,
          s.restart_count ≤ n := by
  intro k
  induction k with
  | zero =>
    intro rc cc hk hle
    have hge : n ≤ rc := by omega
    rw [run_with_monitoring_always_failing, dif_pos hge]
    dsimp only
    refine ⟨⟨by omega, by omega, rfl, rfl⟩, ?_⟩
    intro s hs
    simp only [List.mem_singleton] at hs
    subst hs
    exact hle
  | succ k ih =>
    intro rc cc hk hle
    have hlt : ¬ n ≤ rc := by omega
    rw [run_with_monitoring_always_failing, dif_neg hlt]
    dsimp only
    have ihs := ih (rc + 1) (cc + 1) (by omega) (by omega)
    refine ⟨⟨ihs.1.1, ?_, ihs.1.2.2.1, ihs.1.2.2.2⟩, ?_⟩
    · rw [ihs.1.2.1]
      omega
    · intro s hs
      simp only [List.mem_cons] at hs
      rcases hs with hs | hs
      · subst hs
        exact hle
      · exact ihs.2 s hs

/-- C3: a supervised component whose run function raises on every
invocation, with the shutdown event never set, finishes with exactly
max_restarts restarts and max_restarts plus one crashes, ends in state
STOPPED with the fatal error naming the component, and restart_count never
exceeds max_restarts at any crash; in particular max_restarts of 3 yields
crash_count 4 and restart_count 3. -/
theorem supervisor_restart_limit :
    (∀ (name : String) (n : Nat),
      (run_with_monitoring_always_failing name n 0 0).2.1.restart_count = n
      ∧ (run_with_monitoring_always_failing name n 0 0).2.1.crash_count = n + 1
      ∧ (run_with_monitoring_always_failing name n 0 0).2.1.state = .stopped
      ∧ (run_with_monitoring_always_failing name n 0 0).2.2 =
          name ++ " exceeded maximum restart attempts"
      ∧ ∀ s ∈ (run_with_monitoring_always_failing name n 0 0).1,
          s.restart_count ≤ n)
    ∧ (run_with_monitoring_always_failing "agent" 3 0 0).2.1.restart_count = 3
    ∧ (run_with_monitoring_always_failing "agent" 3 0 0).2.1.crash_count = 4
    ∧ (run_with_monitoring_always_failing "agent" 3 0 0).2.1.state =
        .stopped := by
  have hgen : ∀ (name : String) (n : Nat),
      (run_with_monitoring_always_failing name n 0 0).2.1.restart_count = n
      ∧ (run_with_monitoring_always_failing name n 0 0).2.1.crash_count = n + 1
      ∧ (run_with_monitoring_always_failing name n 0 0).2.1.state = .stopped
      ∧ (run_with_monitoring_always_failing name n 0 0).2.2 =
          name ++ " exceeded maximum restart attempts"
      ∧ ∀ s ∈ (run_with_monitoring_always_failing name n 0 0).1,
          s.restart_count ≤ n := by
    intro name n
    have h := run_always_failing_spec name n (n - 0) 0 0 rfl (by omega)
    refine ⟨h.1.1, ?_, h.1.2.2.1, h.1.2.2.2, h.2⟩
    rw [h.1.2.1]
    omega
  refine ⟨hgen, ?_, ?_, ?_⟩
  · exact (hgen "agent" 3).1
  · exact (hgen "agent" 3).2.1
  · exact (hgen "agent" 3).2.2.1

/-- Witness for the C3 theorem: max_restarts 3 yields exactly 3 restarts,
4 crashes and final state STOPPED. -/
theorem supervisor_restart_limit_witness :
    (run_with_monitoring_always_failing "agent" 3 0 0).2.1.restart_count = 3
    ∧ (run_with_monitoring_always_failing "agent" 3 0 0).2.1.crash_count = 4
    ∧ (run_with_monitoring_always_failing "agent" 3 0 0).2.1.state =
        .stopped :=
  ⟨supervisor_restart_limit.2.1, supervisor_restart_limit.2.2.1,
    supervisor_restart_limit.2.2.2⟩

/-! ## Configuration surface (src/src/config.py, src/src/main.py)

AgentConfig is a Python dataclass; attribute access on an instance
succeeds exactly for the fields the dataclass declares and raises
AttributeError otherwise.  We model the constructed instance as its
attribute dictionary and getattr as lookup in it. -/

/-- A configuration value: string, integer, or boolean. -/
inductive ConfigValue where
  | str (s : String)
  | int (n : Int)
  | bool (b : Bool)
deriving DecidableEq, Repr

/-- The process environment. -/
abbrev Env := String → Option String

/-- os.getenv with a default. -/
def getenv (env : Env) (key dflt : String) : String := (env key).getD dflt

def digitVal (c : Char) : Option Nat :=
  if c.isDigit then some (c.toNat - 48) else none

def parseDigits (acc : Nat) : List Char → Option Nat
  | [] => some acc
  | c :: cs =>
    match digitVal c with
    | some d => parseDigits (acc * 10 + d) cs
    | none => none

def parseNat : List Char → Option Nat
  | [] => none
  | cs => parseDigits 0 cs

/-- The int() conversion applied by AgentConfig.from_env; none models a
raised ValueError. -/
def python_int (s : String) : Option Int :=
  match s.data with
  | [] => none
  | '-' :: cs => (parseNat cs).map (fun n => -(n : Int))
  | cs => (parseNat cs).map (fun n => (n : Int))

/-- The str.lower conversion applied to the boolean options. -/
def python_lower (s : String) : String := ⟨s.data.map Char.toLower⟩

/-- AgentConfig.from_env (src/src/config.py lines 43-59): the attribute
dictionary of the constructed dataclass instance, field by field as
declared in the dataclass (lines 17-41), or none when an int conversion
raises. -/
def AgentConfig.from_env (env : Env) :
    Option (List (String × ConfigValue)) := do
  let poll_interval ← python_int (getenv env "POLL_INTERVAL" "5")
  let batch_size ← python_int (getenv env "BATCH_SIZE" "100")
  let shutdown_timeout ← python_int (getenv env "SHUTDOWN_TIMEOUT" "30")
  let heartbeat_interval ← python_int (getenv env "HEARTBEAT_INTERVAL" "5")
  let max_retries ← python_int (getenv env "MAX_RETRIES" "3")
  let control_polling_interval ←
    python_int (getenv env "CONTROL_POLLING_INTERVAL" "10")
  pure
    [("mongodb_uri", .str (getenv env "MONGODB_URI" "")),
     ("mongodb_database", .str (getenv env "MONGODB_DATABASE" "")),
     ("mongodb_collection", .str (getenv env "MONGODB_COLLECTION" "")),
     ("poll_interval", .int poll_interval),
     ("batch_size", .int batch_size),
     ("shutdown_timeout", .int shutdown_timeout),
     ("heartbeat_interval", .int heartbeat_interval),
     ("max_retries", .int max_retries),
     ("enable_distributed_control",
       .bool (python_lower (getenv env "ENABLE_DISTRIBUTED_CONTROL" "true") == "true")),
     ("enable_change_streams",
       .bool (python_lower (getenv env "ENABLE_CHANGE_STREAMS" "true") == "true")),
     ("control_polling_interval", .int control_polling_interval),
     ("log_level", .str (getenv env "LOG_LEVEL" "INFO"))]

/-- Python attribute lookup on the modelled instance: none models a raised
AttributeError. -/
def getattr_config (attrs : List (String × ConfigValue)) (name : String) :
    Option ConfigValue :=
  (attrs.find? (fun kv => kv.1 == name)).map (fun kv => kv.2)

/-- The configuration attributes main() reads when constructing the
supervised components (src/src/main.py lines 81-94). -/
def main_supervisor_config_attrs : List String :=
  ["max_component_restarts", "restart_backoff_max"]

/-- C8 (failing input): for every environment in which AgentConfig
loads, the loaded configuration object provides no value for either of
the options main() reads to construct the supervised components:
max_component_restarts and restart_backoff_max are not fields of
AgentConfig, so each access raises AttributeError. -/
theorem config_missing_supervisor_options (env : Env)
    (attrs : List (String × ConfigValue))
    (h : AgentConfig.from_env env = some attrs) :
    ∀ name ∈ main_supervisor_config_attrs, getattr_config attrs name = none := by
  intro name hname
  simp only [AgentConfig.from_env, bind, Option.bind_eq_some, Option.pure_def,
    Option.some.injEq] at h
  obtain ⟨pi, hpi, bs, hbs, st, hst, hi, hhi, mr, hmr, cpi, hcpi, hattrs⟩ := h
  subst hattrs
  simp only [main_supervisor_config_attrs, List.mem_cons, List.mem_singleton,
    List.not_mem_nil, or_false] at hname
  rcases hname with rfl | rfl
  · rfl
  · rfl

/-- The attribute dictionary loaded from the empty environment (all
defaults). -/
def defaultConfigAttrs : List (String × ConfigValue) :=
  [("mongodb_uri", .str ""),
   ("mongodb_database", .str ""),
   ("mongodb_collection", .str ""),
   ("poll_interval", .int 5),
   ("batch_size", .int 100),
   ("shutdown_timeout", .int 30),
   ("heartbeat_interval", .int 5),
   ("max_retries", .int 3),
   ("enable_distributed_control", .bool true),
   ("enable_change_streams", .bool true),
   ("control_polling_interval", .int 10),
   ("log_level", .str "INFO")]

/-- Witness for the C8 theorem: on the empty environment the loaded
configuration has no max_component_restarts attribute. -/
theorem config_missing_supervisor_options_witness :
    getattr_config defaultConfigAttrs "max_component_restarts" = none :=
  config_missing_supervisor_options (fun _ => none) defaultConfigAttrs
    (by decide) "max_component_restarts" (by decide)

end PullingAgent
